import Mathlib

/-!
Verification of the PairProgramming client collaboration layer.

Shallow embedding of:
- src/pair-programming-app/frontend/src/services/websocket.ts (WebSocketService)
- src/frontend/src/components/CodeEditor.tsx (CodeEditor component)

Stateful TypeScript is modelled by explicit state passing; the browser event
loop (queued close events, armed setTimeout timers) is modelled by explicit
queues and counters; fallible host calls are modelled by an explicit Bool
result marking a raise.
-/

namespace PairProg

/-- A (line, column) editor position, as used by the cursor protocol. -/
structure Pos where
  line : Nat
  column : Nat
deriving DecidableEq

/-- The handler stored in a raw WebSocket objects onclose slot.
`connect()` (websocket.ts line 36) installs a handler that only calls
`this.attemptReconnect()`; `onClose(callback)` (websocket.ts line 65)
replaces it with one that calls the callback and then `attemptReconnect()`. -/
inductive CloseBehavior
  | reconnectOnly
  | callbackThenReconnect
deriving DecidableEq

/-- A raw browser WebSocket object, reduced to the two handler slots the
claims depend on: whether an onmessage handler is attached, and which
onclose behavior is installed. A fresh socket from `connect()` has no
onmessage handler (connect never sets `onmessage`). -/
structure Socket where
  hasMessageHandler : Bool
  closeBehavior : CloseBehavior
deriving DecidableEq

/-- websocket.ts line 13: `private maxReconnectAttempts = 5`. -/
def maxReconnectAttempts : Nat := 5

/-- websocket.ts line 14: `private reconnectDelay = 2000`. -/
def reconnectDelay : Nat := 2000

/-- State of one WebSocketService instance (websocket.ts lines 9-19).
`connectTimersArmed` counts pending `setTimeout(() => this.connect(), ...)`
timers armed by `attemptReconnect`. -/
structure WSService where
  ws : Option Socket
  reconnectAttempts : Nat
  connectTimersArmed : Nat
deriving DecidableEq

/-- The socket produced by `connect()` (websocket.ts lines 21-40): onopen,
onerror and onclose are assigned, onmessage is not. -/
def freshSocket : Socket :=
  { hasMessageHandler := false, closeBehavior := CloseBehavior.reconnectOnly }

/-- `connect()` (websocket.ts lines 21-40): `this.ws = new WebSocket(url)`
with the constructor-installed handlers. -/
def wsConnect (s : WSService) : WSService :=
  { s with ws := some freshSocket }

/-- The `onopen` handler (websocket.ts lines 27-30): `this.reconnectAttempts = 0`. -/
def wsOnOpen (s : WSService) : WSService :=
  { s with reconnectAttempts := 0 }

/-- `attemptReconnect()` (websocket.ts lines 42-50): if the attempt counter
is below `maxReconnectAttempts`, increment it and arm
`setTimeout(() => this.connect(), this.reconnectDelay)`; otherwise do
nothing (only logs that the maximum was reached). The Bool result records
whether a further attempt was scheduled. -/
def wsAttemptReconnect (s : WSService) : WSService × Bool :=
  if s.reconnectAttempts < maxReconnectAttempts then
    ({ s with reconnectAttempts := s.reconnectAttempts + 1,
              connectTimersArmed := s.connectTimersArmed + 1 }, true)
  else (s, false)

/-- Expiry of one timer armed by `attemptReconnect`: the callback is
`() => this.connect()` (websocket.ts line 46). -/
def wsConnectTimerFire (s : WSService) : WSService :=
  wsConnect { s with connectTimersArmed := s.connectTimersArmed - 1 }

/-- `onMessage(callback)` (websocket.ts lines 52-63): if `this.ws` is
non-null, assign its onmessage slot; otherwise do nothing. Only the socket
currently referenced by `this.ws` gets the handler. -/
def wsOnMessage (s : WSService) : WSService :=
  match s.ws with
  | some sock => { s with ws := some { sock with hasMessageHandler := true } }
  | none => s

/-- `onClose(callback)` (websocket.ts lines 65-72): replace the current
sockets onclose slot with `() => { callback(); this.attemptReconnect(); }`. -/
def wsOnClose (s : WSService) : WSService :=
  match s.ws with
  | some sock =>
      { s with ws := some { sock with closeBehavior := CloseBehavior.callbackThenReconnect } }
  | none => s

/-- `disconnect()` (websocket.ts lines 96-101): `this.ws.close()` then
`this.ws = null`. Per the browser WebSocket API, `close()` queues a close
event that is later dispatched to the onclose handler installed on the
socket object; nulling the `this.ws` field does not detach that handler.
The result carries the close behavior of the queued event, if a socket
was open. -/
def wsDisconnect (s : WSService) : WSService × Option CloseBehavior :=
  match s.ws with
  | some sock => ({ s with ws := none }, some sock.closeBehavior)
  | none => (s, none)

/-- Whether an inbound frame delivered to this socket invokes a registered
message callback. With no onmessage handler attached the browser drops the
frame silently. -/
def deliverInvokesHandler (sock : Socket) : Bool :=
  sock.hasMessageHandler

/-- True when an inbound frame on the services current socket is dropped
(no onmessage handler attached, or no socket at all). -/
def serviceDrops (s : WSService) : Bool :=
  match s.ws with
  | some sock => !sock.hasMessageHandler
  | none => true

/-- The service as built by `new WebSocketService(roomId)` (websocket.ts
lines 16-19): field initializers then `this.connect()`. -/
def wsServiceInit : WSService :=
  wsConnect { ws := none, reconnectAttempts := 0, connectTimersArmed := 0 }

/-- The service state after n consecutive connection failures, each failure
dispatching the constructor-installed onclose handler, i.e. calling
`attemptReconnect()` (websocket.ts lines 36-39). -/
def wsAfterFails : Nat → WSService
  | 0 => wsServiceInit
  | n + 1 => (wsAttemptReconnect (wsAfterFails n)).1

/-- CodeEditor.tsx line 36: `reconnectTimeout.current = 1000` (base backoff). -/
def backoffBase : Nat := 1000

/-- CodeEditor.tsx line 274: backoff ceiling 30000 ms. -/
def backoffCap : Nat := 30000

/-- The CodeEditor-level reconnection supervisor state: the refs
`reconnectTimer` (whether a reconnect timer is armed), `reconnectTimeout`
(current backoff delay) and the React states `isReconnecting`, `connected`
(CodeEditor.tsx lines 26-37). -/
structure EditorSup where
  reconnectTimerArmed : Bool
  reconnectTimeout : Nat
  isReconnecting : Bool
  connected : Bool
deriving DecidableEq

/-- `attemptReconnect` (CodeEditor.tsx lines 257-276): if a reconnect timer
is already armed, return; otherwise set `isReconnecting` and arm a timer
for the current `reconnectTimeout` delay. The delay doubling happens when
the timer fires, not here. -/
def editorAttemptReconnect (e : EditorSup) : EditorSup :=
  if e.reconnectTimerArmed then e
  else { e with reconnectTimerArmed := true, isReconnecting := true }

/-- Expiry of the timer armed by `attemptReconnect` (CodeEditor.tsx lines
262-275): the callback discards the old service, reinitializes, nulls the
timer ref and sets `reconnectTimeout = min(reconnectTimeout * 2, 30000)`.
Only the supervisor-local fields are modelled here; the service swap is
modelled in the composed `AppState` functions. -/
def editorReconnectFire (e : EditorSup) : EditorSup :=
  { e with reconnectTimerArmed := false,
           reconnectTimeout := min (e.reconnectTimeout * 2) backoffCap }

/-- The supervisor state on mount: timer not armed, backoff at base. -/
def editorSupInit : EditorSup :=
  { reconnectTimerArmed := false, reconnectTimeout := backoffBase,
    isReconnecting := false, connected := false }

/-- One consecutive connection failure cycle of the supervisor: the close
callback runs (`setConnected(false)` then `attemptReconnect()`,
CodeEditor.tsx lines 329-332), and the armed reconnect timer later fires. -/
def editorFailCycle (e : EditorSup) : EditorSup :=
  editorReconnectFire (editorAttemptReconnect { e with connected := false })

/-- The supervisor after n consecutive connection failures. -/
def editorAfterFails : Nat → EditorSup
  | 0 => editorSupInit
  | n + 1 => editorFailCycle (editorAfterFails n)

/-- The composed component state for mount/teardown scenarios: the current
WebSocketService, the supervisor refs, and close events queued by the
browser but not yet dispatched. -/
structure AppState where
  svc : WSService
  sup : EditorSup
  pendingCloseEvents : List CloseBehavior
deriving DecidableEq

/-- `initializeWebSocket` (CodeEditor.tsx lines 279-333): construct a new
WebSocketService (whose constructor connects), then register the message
callback via `onMessage` and the close callback via `onClose`. -/
def initializeWebSocket (app : AppState) : AppState :=
  { app with svc := wsOnClose (wsOnMessage wsServiceInit) }

/-- The useEffect cleanup (CodeEditor.tsx lines 339-353): clear the
reconnect timer, cursor throttle and AI debounce timers, abort the AI
request, then `wsService.current?.disconnect()`. The disconnect queues a
close event carrying the sockets installed onclose behavior. -/
def cleanup (app : AppState) : AppState :=
  let sup2 := { app.sup with reconnectTimerArmed := false }
  let r := wsDisconnect app.svc
  { svc := r.1, sup := sup2,
    pendingCloseEvents :=
      app.pendingCloseEvents ++ (match r.2 with
        | some b => [b]
        | none => []) }

/-- Dispatch of one queued close event. With `reconnectOnly` the handler
runs `attemptReconnect()` on the service. With `callbackThenReconnect` the
editor callback runs first (`setConnected(false); attemptReconnect()`,
CodeEditor.tsx lines 329-332) and then the services `attemptReconnect()`
(websocket.ts lines 67-70). -/
def dispatchCloseEvent (b : CloseBehavior) (app : AppState) : AppState :=
  match b with
  | CloseBehavior.reconnectOnly =>
      { app with svc := (wsAttemptReconnect app.svc).1 }
  | CloseBehavior.callbackThenReconnect =>
      { app with
          sup := editorAttemptReconnect { app.sup with connected := false },
          svc := (wsAttemptReconnect app.svc).1 }

/-- The initial component state before mount. -/
def appInit : AppState :=
  { svc := { ws := none, reconnectAttempts := 0, connectTimersArmed := 0 },
    sup := editorSupInit, pendingCloseEvents := [] }

/-- The payload fields an inbound envelope may carry; each is optional
because JSON payloads can omit fields. Mirrors the shapes read by the
onMessage switch in CodeEditor.tsx lines 282-327. -/
structure MsgData where
  code : Option String
  user_id : Option String
  user_name : Option String
  position : Option Pos
  user_count : Option Nat
deriving DecidableEq

/-- One parsed envelope: a type tag and an optional data object
(websocket.ts lines 3-7; `data` is absent when the JSON lacks it). -/
structure Msg where
  type : String
  data : Option MsgData
deriving DecidableEq

/-- Observable effects of the editor component: a scheduled React
re-render, outbound sends, the AI pipeline trigger, a console diagnostic,
and the (never exercised) capability of closing the connection. -/
inductive Effect
  | render
  | sendCode (code : String)
  | sendCursor (p : Pos)
  | triggerAI (code : String)
  | logError (text : String)
  | closeConnection
deriving DecidableEq

/-- The slice of CodeEditor component state the message switch touches:
the React `code` state, the Monaco buffer text, the remote-apply
suppression flag `isRemoteChange`, the connection indicators, the backoff
ref, the user count, and the painted remote-cursor decorations (one entry
per remote user). `setValueFails` is an environment flag: the host editor
capability raising from `setValue`. -/
structure EditorState where
  codeState : String
  editorValue : String
  isRemoteChange : Bool
  connected : Bool
  isReconnecting : Bool
  reconnectTimeout : Nat
  userCount : Nat
  remoteDecorations : List (String × Pos)
  setValueFails : Bool
deriving DecidableEq

/-- React useState setter for `code`: updating to a value equal to the
current state bails out without scheduling a re-render (React Object.is
bailout); otherwise the state changes and a re-render is scheduled. -/
def setCode (v : String) (st : EditorState) : EditorState × List Effect :=
  if v = st.codeState then (st, [])
  else ({ st with codeState := v }, [Effect.render])

/-- The onDidChangeModelContent handler (CodeEditor.tsx lines 64-73): when
the suppression flag is clear and the change is non-empty, update the code
state, send a `code_update` with the full buffer and feed the AI pipeline;
when the flag is set, do nothing. -/
def handleContentChange (st : EditorState) : EditorState × List Effect :=
  if st.isRemoteChange then (st, [])
  else
    let r := setCode st.editorValue st
    (r.1, r.2 ++ [Effect.sendCode st.editorValue, Effect.triggerAI st.editorValue])

/-- Monaco `editor.setValue(v)`: replaces the buffer and synchronously
fires onDidChangeModelContent. When the host capability fails
(`setValueFails`), it raises before mutating the buffer; the Bool result
is true exactly when it raised. -/
def doSetValue (v : String) (st : EditorState) : EditorState × List Effect × Bool :=
  if st.setValueFails then (st, [], true)
  else
    let st1 := { st with editorValue := v }
    let r := handleContentChange st1
    (r.1, r.2, false)

/-- Reading `message.data.code`: absent `data` raises (property access on
undefined); an absent `code` field leads to a raise inside the later
editor call, modelled as raising at first use. -/
def getCodeField (d : Option MsgData) : Option String :=
  match d with
  | none => none
  | some dd => dd.code

/-- `updateRemoteCursor` (CodeEditor.tsx lines 167-213): create or update
the RemoteUser entry for this id and repaint its decoration at the new
position. The color and injected style are deterministic renderer details
not modelled here. -/
def updateRemoteCursor (uid : String) (p : Pos) (st : EditorState) : EditorState :=
  { st with remoteDecorations :=
      (uid, p) :: st.remoteDecorations.filter (fun q => !(q.1 == uid)) }

/-- `removeRemoteCursor` (CodeEditor.tsx lines 216-224): release the
decorations owned by this id and drop the entry. -/
def removeRemoteCursor (uid : String) (st : EditorState) : EditorState :=
  { st with remoteDecorations := st.remoteDecorations.filter (fun q => !(q.1 == uid)) }

/-- The `init` arm (CodeEditor.tsx lines 284-296): set the code state, mark
connected, clear the reconnect indicator, reset the backoff to its base,
and if the payload differs from the buffer, set the suppression flag, write
the buffer, and clear the flag. A raise inside `setValue` leaves the flag
set (there is no try/finally). The Bool result is true when the arm
raised. -/
def applyInit (d : Option MsgData) (st : EditorState) : EditorState × List Effect × Bool :=
  match getCodeField d with
  | none => (st, [], true)
  | some c =>
    let r1 := setCode c st
    let st2 := { r1.1 with connected := true, isReconnecting := false,
                           reconnectTimeout := backoffBase }
    if c = st2.editorValue then (st2, r1.2, false)
    else
      let st3 := { st2 with isRemoteChange := true }
      let r2 := doSetValue c st3
      if r2.2.2 then (r2.1, r1.2 ++ r2.2.1, true)
      else ({ r2.1 with isRemoteChange := false }, r1.2 ++ r2.2.1, false)

/-- The `code_update` arm (CodeEditor.tsx lines 298-305): set the
suppression flag, set the code state, write the buffer only if the payload
differs from the current buffer text, then clear the flag. A raise while
reading the payload or writing the buffer propagates with the flag still
set. -/
def applyCodeUpdate (d : Option MsgData) (st : EditorState) : EditorState × List Effect × Bool :=
  let st0 := { st with isRemoteChange := true }
  match getCodeField d with
  | none => (st0, [], true)
  | some c =>
    let r1 := setCode c st0
    if c = r1.1.editorValue then ({ r1.1 with isRemoteChange := false }, r1.2, false)
    else
      let r2 := doSetValue c r1.1
      if r2.2.2 then (r2.1, r1.2 ++ r2.2.1, true)
      else ({ r2.1 with isRemoteChange := false }, r1.2 ++ r2.2.1, false)

/-- The `cursor_update` arm (CodeEditor.tsx lines 307-315): guarded on
`user_id` and `position` being present; absent `data` raises on property
access. An absent display name falls back to Anonymous (not stored here). -/
def applyCursorUpdate (d : Option MsgData) (st : EditorState) : EditorState × List Effect × Bool :=
  match d with
  | none => (st, [], true)
  | some dd =>
    match dd.user_id, dd.position with
    | some uid, some p => (updateRemoteCursor uid p st, [], false)
    | _, _ => (st, [], false)

/-- The `user_joined`/`user_left` arm (CodeEditor.tsx lines 317-325):
set the user count from the payload (absent `data` raises on property
access; an absent count stores an undefined count in JS, modelled as
leaving the count unchanged), and on `user_left` with a `user_id` remove
that remote cursor. -/
def applyUserEvent (isLeft : Bool) (d : Option MsgData) (st : EditorState) :
    EditorState × List Effect × Bool :=
  match d with
  | none => (st, [], true)
  | some dd =>
    let st1 := match dd.user_count with
      | some n => { st with userCount := n }
      | none => st
    if isLeft then
      match dd.user_id with
      | some uid => (removeRemoteCursor uid st1, [], false)
      | none => (st1, [], false)
    else (st1, [], false)

/-- The onMessage switch (CodeEditor.tsx lines 282-327). The switch has no
default arm: an unrecognized type tag falls through with no effect at all. -/
def dispatchMsg (m : Msg) (st : EditorState) : EditorState × List Effect × Bool :=
  if m.type = "init" then applyInit m.data st
  else if m.type = "code_update" then applyCodeUpdate m.data st
  else if m.type = "cursor_update" then applyCursorUpdate m.data st
  else if m.type = "user_joined" then applyUserEvent false m.data st
  else if m.type = "user_left" then applyUserEvent true m.data st
  else (st, [], false)

/-- The console.error text of the onmessage catch (websocket.ts line 59). -/
def parseLogText : String := "Error parsing WebSocket message:"

/-- The onmessage handler installed by `onMessage` (websocket.ts lines
52-63): `JSON.parse` and the editor callback both run inside one
try/catch; a parse failure (`none` input) or a raise inside the switch is
caught and logged, and processing continues. State mutated before the
raise persists. -/
def onMessageHandler (parsed : Option Msg) (st : EditorState) :
    EditorState × List Effect :=
  match parsed with
  | none => (st, [Effect.logError parseLogText])
  | some m =>
    let r := dispatchMsg m st
    if r.2.2 then (r.1, r.2.1 ++ [Effect.logError parseLogText])
    else (r.1, r.2.1)

/-- The closed set of type tags the switch recognizes. -/
def knownType (ty : String) : Bool :=
  ty == "init" || ty == "code_update" || ty == "cursor_update" ||
  ty == "user_joined" || ty == "user_left"

/-- No outbound `code_update` among these effects. -/
def noSends (effs : List Effect) : Bool :=
  effs.all fun e =>
    match e with
    | Effect.sendCode _ => false
    | _ => true

/-- No connection-teardown among these effects. -/
def noTeardown (effs : List Effect) : Bool :=
  effs.all fun e =>
    match e with
    | Effect.closeConnection => false
    | _ => true

/-- Payload object carrying only a `code` field, as sent for `init` and
`code_update`. -/
def codeData (c : String) : MsgData :=
  { code := some c, user_id := none, user_name := none, position := none,
    user_count := none }

/-- A well-formed `code_update` envelope. -/
def mkCodeUpdate (c : String) : Msg :=
  { type := "code_update", data := some (codeData c) }

/-- A well-formed `init` envelope. -/
def mkInit (c : String) : Msg :=
  { type := "init", data := some (codeData c) }

/-- CodeEditor.tsx line 163: the cursor throttle window, 100 ms. -/
def cursorThrottleMs : Nat := 100

/-- One call of `sendCursorUpdate` (CodeEditor.tsx lines 152-164) at time
`mv.1` with position `mv.2`. The throttle state is the pending send, if
any: the fire time and the position captured by the armed closure. If a
timer armed earlier has already expired by now, its send (with the
position it captured) is emitted first and the ref is nulled; then, if the
ref is non-null the call returns immediately (the move is dropped),
otherwise a timer is armed for 100 ms later carrying this position. -/
def cursorStep (st : Option (Nat × Pos)) (mv : Nat × Pos) :
    Option (Nat × Pos) × List (Nat × Pos) :=
  match st with
  | none => (some (mv.1 + cursorThrottleMs, mv.2), [])
  | some (ft, q) =>
    if ft ≤ mv.1 then (some (mv.1 + cursorThrottleMs, mv.2), [(ft, q)])
    else (some (ft, q), [])

/-- Fold step accumulating the throttle state and the emitted sends. -/
def cursorFold (acc : Option (Nat × Pos) × List (Nat × Pos)) (mv : Nat × Pos) :
    Option (Nat × Pos) × List (Nat × Pos) :=
  let r := cursorStep acc.1 mv
  (r.1, acc.2 ++ r.2)

/-- Run a sequence of cursor moves (time-ordered) through the throttle. -/
def cursorRun (moves : List (Nat × Pos)) : Option (Nat × Pos) × List (Nat × Pos) :=
  moves.foldl cursorFold (none, [])

/-- All `cursor_update` sends (fire time, carried position) produced by a
sequence of moves, including the pending timer firing after the last move. -/
def cursorSends (moves : List (Nat × Pos)) : List (Nat × Pos) :=
  let r := cursorRun moves
  r.2 ++ (match r.1 with
    | some fp => [fp]
    | none => [])

/-- CodeEditor.tsx line 110: the AI debounce window, 500 ms. -/
def aiDebounceMs : Nat := 500

/-- Inputs to the suggestion pipeline: a local edit (which runs
`triggerAIAutocomplete`, CodeEditor.tsx lines 94-111) or a manual request
via `requestAutocomplete` (lines 357-364), each with its time and the
buffer snapshot passed along. -/
inductive AIInput
  | edit (t : Nat) (snap : String)
  | manual (t : Nat) (snap : String)
deriving DecidableEq

/-- One pipeline input against the debounce state (pending fire time and
captured snapshot, if a debounce timer is armed). A timer whose fire time
has passed fires first, starting a request with its captured snapshot.
An edit with empty code returns early (line 95) without touching the
timer; otherwise it clears and re-arms the debounce timer for 500 ms later
(aborting any in-flight request, not modelled here). A manual request
starts a request immediately and does not touch the debounce timer.
Outputs are request starts (start time, snapshot). -/
def aiStep (st : Option (Nat × String)) (ev : AIInput) :
    Option (Nat × String) × List (Nat × String) :=
  match ev with
  | AIInput.edit t s =>
    if s.length = 0 then (st, [])
    else
      match st with
      | none => (some (t + aiDebounceMs, s), [])
      | some (ft, fs) =>
        if ft ≤ t then (some (t + aiDebounceMs, s), [(ft, fs)])
        else (some (t + aiDebounceMs, s), [])
  | AIInput.manual t s =>
    match st with
    | none => (none, [(t, s)])
    | some (ft, fs) =>
      if ft ≤ t then (none, [(ft, fs), (t, s)])
      else (some (ft, fs), [(t, s)])

/-- Fold step accumulating the debounce state and the request starts. -/
def aiFold (acc : Option (Nat × String) × List (Nat × String)) (ev : AIInput) :
    Option (Nat × String) × List (Nat × String) :=
  let r := aiStep acc.1 ev
  (r.1, acc.2 ++ r.2)

/-- Run a time-ordered sequence of pipeline inputs. -/
def aiRun (evs : List AIInput) : Option (Nat × String) × List (Nat × String) :=
  evs.foldl aiFold (none, [])

/-- All suggestion request starts produced by a sequence of inputs,
including the pending debounce timer firing after the last input. -/
def aiRequests (evs : List AIInput) : List (Nat × String) :=
  let r := aiRun evs
  r.2 ++ (match r.1 with
    | some fp => [fp]
    | none => [])

/-- Untimed actions of the suggestion pipeline, for the in-flight
invariant: a local edit (`triggerAIAutocomplete`), the debounce timer
expiring (calling `fetchAISuggestions`), and an outstanding fetch
settling. -/
inductive AIAction
  | editA
  | fireA
  | resolveA
deriving DecidableEq

/-- Pipeline occupancy state: whether the debounce timer is armed and how
many fetches are outstanding. -/
structure AIFlight where
  armed : Bool
  inFlight : Nat
deriving DecidableEq

/-- Effect of one action: an edit clears the timer, aborts any in-flight
fetch (`aiRequestController.current.abort()`, CodeEditor.tsx lines
102-105) and re-arms; the timer expiry starts a fetch if armed; a settling
fetch leaves flight. -/
def aiFlightStep (st : AIFlight) (a : AIAction) : AIFlight :=
  match a with
  | AIAction.editA => { armed := true, inFlight := 0 }
  | AIAction.fireA =>
      if st.armed then { armed := false, inFlight := st.inFlight + 1 } else st
  | AIAction.resolveA => { st with inFlight := st.inFlight - 1 }

/-- Run a sequence of actions from the idle pipeline. -/
def aiFlightRun (as : List AIAction) : AIFlight :=
  as.foldl aiFlightStep { armed := false, inFlight := 0 }

/-- A concrete component state used for closed evaluations. -/
def demoState : EditorState :=
  { codeState := "a", editorValue := "a", isRemoteChange := false,
    connected := true, isReconnecting := false, reconnectTimeout := 1000,
    userCount := 1, remoteDecorations := [], setValueFails := false }

/-- A concrete component state whose host editor raises from `setValue`. -/
def demoStateFailing : EditorState :=
  { codeState := "a", editorValue := "a", isRemoteChange := false,
    connected := true, isReconnecting := false, reconnectTimeout := 1000,
    userCount := 1, remoteDecorations := [], setValueFails := true }

/-! Helper lemmas. -/

lemma editorAfterFails_not_armed (n : Nat) :
    (editorAfterFails n).reconnectTimerArmed = false := by
  cases n with
  | zero => rfl
  | succ m => rfl

lemma editorAfterFails_succ_timeout (n : Nat) :
    (editorAfterFails (n + 1)).reconnectTimeout
      = min ((editorAfterFails n).reconnectTimeout * 2) backoffCap := by
  have h := editorAfterFails_not_armed n
  show (editorFailCycle (editorAfterFails n)).reconnectTimeout = _
  simp [editorFailCycle, editorAttemptReconnect, editorReconnectFire, h]

lemma editorAfterFails_le_cap (n : Nat) :
    (editorAfterFails n).reconnectTimeout ≤ backoffCap := by
  induction n with
  | zero => decide
  | succ m _ =>
    rw [editorAfterFails_succ_timeout m]
    exact Nat.min_le_right _ _

lemma setCode_editorValue (v : String) (st : EditorState) :
    (setCode v st).1.editorValue = st.editorValue := by
  unfold setCode; split <;> rfl

lemma setCode_isRemoteChange (v : String) (st : EditorState) :
    (setCode v st).1.isRemoteChange = st.isRemoteChange := by
  unfold setCode; split <;> rfl

lemma setCode_setValueFails (v : String) (st : EditorState) :
    (setCode v st).1.setValueFails = st.setValueFails := by
  unfold setCode; split <;> rfl

lemma setCode_noSends (v : String) (st : EditorState) :
    noSends (setCode v st).2 = true := by
  unfold setCode; split <;> rfl

lemma setCode_noTeardown (v : String) (st : EditorState) :
    noTeardown (setCode v st).2 = true := by
  unfold setCode; split <;> rfl

lemma noSends_append (a b : List Effect) :
    noSends (a ++ b) = (noSends a && noSends b) :=
  List.all_append

lemma noTeardown_append (a b : List Effect) :
    noTeardown (a ++ b) = (noTeardown a && noTeardown b) :=
  List.all_append

lemma noTeardown_logError (s : String) :
    noTeardown [Effect.logError s] = true := rfl

lemma hcc_remote (st : EditorState) (h : st.isRemoteChange = true) :
    handleContentChange st = (st, []) := by
  unfold handleContentChange
  rw [if_pos h]

lemma hcc_noTeardown (st : EditorState) :
    noTeardown (handleContentChange st).2 = true := by
  unfold handleContentChange
  split
  · rfl
  · simp [noTeardown_append, setCode_noTeardown]
    rfl

lemma doSetValue_fails (v : String) (st : EditorState)
    (h : st.setValueFails = true) : doSetValue v st = (st, [], true) := by
  unfold doSetValue
  rw [if_pos h]

lemma doSetValue_remote (v : String) (st : EditorState)
    (h1 : st.isRemoteChange = true) (h2 : st.setValueFails = false) :
    doSetValue v st = ({ st with editorValue := v }, [], false) := by
  unfold doSetValue
  rw [if_neg (by simp [h2])]
  have : handleContentChange { st with editorValue := v }
      = ({ st with editorValue := v }, []) := hcc_remote _ h1
  simp [this]

lemma doSetValue_noTeardown (v : String) (st : EditorState) :
    noTeardown (doSetValue v st).2.1 = true := by
  unfold doSetValue
  split
  · rfl
  · simp [hcc_noTeardown]

lemma applyInit_noTeardown (d : Option MsgData) (st : EditorState) :
    noTeardown (applyInit d st).2.1 = true := by
  unfold applyInit
  cases hgd : getCodeField d with
  | none => rfl
  | some c =>
    simp only []
    split
    · exact setCode_noTeardown _ _
    · split
      · simp [noTeardown_append, setCode_noTeardown, doSetValue_noTeardown]
      · simp [noTeardown_append, setCode_noTeardown, doSetValue_noTeardown]

lemma applyCodeUpdate_noTeardown (d : Option MsgData) (st : EditorState) :
    noTeardown (applyCodeUpdate d st).2.1 = true := by
  unfold applyCodeUpdate
  cases hgd : getCodeField d with
  | none => rfl
  | some c =>
    simp only []
    split
    · exact setCode_noTeardown _ _
    · split
      · simp [noTeardown_append, setCode_noTeardown, doSetValue_noTeardown]
      · simp [noTeardown_append, setCode_noTeardown, doSetValue_noTeardown]

lemma applyCursorUpdate_effects (d : Option MsgData) (st : EditorState) :
    (applyCursorUpdate d st).2.1 = [] := by
  unfold applyCursorUpdate
  split
  · rfl
  · split <;> rfl

lemma applyUserEvent_effects (isLeft : Bool) (d : Option MsgData) (st : EditorState) :
    (applyUserEvent isLeft d st).2.1 = [] := by
  unfold applyUserEvent
  split
  · rfl
  · split <;> split <;> first
    | rfl
    | (split <;> rfl)

lemma dispatchMsg_noTeardown (m : Msg) (st : EditorState) :
    noTeardown (dispatchMsg m st).2.1 = true := by
  unfold dispatchMsg
  split
  · exact applyInit_noTeardown _ _
  · split
    · exact applyCodeUpdate_noTeardown _ _
    · split
      · rw [applyCursorUpdate_effects]; rfl
      · split
        · rw [applyUserEvent_effects]; rfl
        · split
          · rw [applyUserEvent_effects]; rfl
          · rfl

lemma aiFlight_inv (acts : List AIAction) :
    ∀ st : AIFlight, (st.armed = true → st.inFlight = 0) → st.inFlight ≤ 1 →
      ((acts.foldl aiFlightStep st).armed = true →
        (acts.foldl aiFlightStep st).inFlight = 0)
      ∧ (acts.foldl aiFlightStep st).inFlight ≤ 1 := by
  induction acts with
  | nil => exact fun st h1 h2 => ⟨h1, h2⟩
  | cons a tl ih =>
    intro st h1 h2
    rw [List.foldl_cons]
    apply ih
    · cases a with
      | editA => intro _; rfl
      | fireA =>
        simp only [aiFlightStep]
        split
        · intro h; simp at h
        · exact h1
      | resolveA =>
        intro h
        have := h1 h
        simp [aiFlightStep, this]
    · cases a with
      | editA => simp [aiFlightStep]
      | fireA =>
        simp only [aiFlightStep]
        split
        · rename_i ha
          simp [h1 ha]
        · exact h2
      | resolveA => simp only [aiFlightStep]; omega

lemma cursorRun_drop (rest : List (Nat × Pos)) :
    ∀ (ft : Nat) (q : Pos) (out : List (Nat × Pos)),
      (∀ mv ∈ rest, mv.1 < ft) →
      rest.foldl cursorFold (some (ft, q), out) = (some (ft, q), out) := by
  induction rest with
  | nil => intro ft q out _; rfl
  | cons mv tl ih =>
    intro ft q out h
    have hmv : mv.1 < ft := h mv (List.mem_cons_self mv tl)
    have hstep : cursorFold (some (ft, q), out) mv = (some (ft, q), out) := by
      simp [cursorFold, cursorStep, Nat.not_le.mpr hmv]
    rw [List.foldl_cons, hstep]
    exact ih ft q out (fun x hx => h x (List.mem_cons_of_mem mv hx))

/-! Claim theorems. -/

/-- C1, counterexample. The claim says that after any finite number of
failed attempts a further attempt is still scheduled, but
WebSocketService.attemptReconnect (the code the claim points at) caps the
count: after 5 consecutive failed attempts the attempt counter equals
maxReconnectAttempts and the next failure schedules no reconnect at all. -/
theorem ws_reconnect_gives_up_after_five :
    (wsAfterFails 5).reconnectAttempts = maxReconnectAttempts
    ∧ (wsAttemptReconnect (wsAfterFails 5)).2 = false := by
  exact ⟨rfl, rfl⟩

/-- C1, amended. The WebSocketService schedules another internal reconnect
attempt exactly while its consecutive-failure counter is below
maxReconnectAttempts = 5; only the CodeEditor-level supervisor is
uncapped: after every finite number of failure cycles its attemptReconnect
still arms a further reconnect timer, and only the delay is bounded, by
the 30000 ms backoff ceiling. -/
theorem reconnect_cap_is_ws_only_editor_uncapped :
    (∀ s : WSService,
      (wsAttemptReconnect s).2 = decide (s.reconnectAttempts < maxReconnectAttempts))
    ∧ (∀ n : Nat,
      (editorAttemptReconnect (editorAfterFails n)).reconnectTimerArmed = true
      ∧ (editorAfterFails n).reconnectTimeout ≤ backoffCap) := by
  constructor
  · intro s
    unfold wsAttemptReconnect
    split
    · rename_i h; simp [h]
    · rename_i h; simp [h]
  · intro n
    refine ⟨?_, editorAfterFails_le_cap n⟩
    simp [editorAttemptReconnect, editorAfterFails_not_armed n]

/-- C2 (code_bug). After the hosting view mounts the editor and then tears
it down, the cleanup clears the armed reconnect timer and calls
disconnect(), but disconnect() does not detach the socket onclose handler:
the queued close event still carries the callback-then-reconnect behavior,
and dispatching it arms a fresh editor reconnect timer and schedules an
internal service reconnect — a reconnect is scheduled after an explicit
local close, contradicting the claim. -/
theorem teardown_still_schedules_reconnect :
    (cleanup (initializeWebSocket appInit)).sup.reconnectTimerArmed = false
    ∧ (cleanup (initializeWebSocket appInit)).pendingCloseEvents
        = [CloseBehavior.callbackThenReconnect]
    ∧ (dispatchCloseEvent CloseBehavior.callbackThenReconnect
        (cleanup (initializeWebSocket appInit))).sup.reconnectTimerArmed = true
    ∧ (dispatchCloseEvent CloseBehavior.callbackThenReconnect
        (cleanup (initializeWebSocket appInit))).svc.connectTimersArmed = 1 := by
  exact ⟨rfl, rfl, rfl, rfl⟩

/-- C3 (confirmed). The reconnect backoff starts at the 1000 ms base,
evolves by doubling capped at the 30000 ms ceiling on each consecutive
failure cycle, is non-decreasing and never exceeds the ceiling; receiving
an init message (a successful connection) resets the backoff to its base,
and the service onopen handler resets the attempt counter to zero. -/
theorem backoff_doubles_capped_and_resets :
    (editorAfterFails 0).reconnectTimeout = backoffBase
    ∧ (∀ n : Nat, (editorAfterFails (n + 1)).reconnectTimeout
        = min ((editorAfterFails n).reconnectTimeout * 2) backoffCap)
    ∧ (∀ n : Nat,
        (editorAfterFails n).reconnectTimeout ≤ (editorAfterFails (n + 1)).reconnectTimeout
        ∧ (editorAfterFails n).reconnectTimeout ≤ backoffCap)
    ∧ (∀ (st : EditorState) (c : String),
        ((dispatchMsg (mkInit c) st).1).reconnectTimeout = backoffBase)
    ∧ (∀ s : WSService, (wsOnOpen s).reconnectAttempts = 0) := by
  refine ⟨rfl, editorAfterFails_succ_timeout, ?_, ?_, fun s => rfl⟩
  · intro n
    have hc := editorAfterFails_le_cap n
    have hs := editorAfterFails_succ_timeout n
    constructor
    · rw [hs]; omega
    · exact hc
  · intro st c
    have hd : dispatchMsg (mkInit c) st = applyInit (some (codeData c)) st := rfl
    rw [hd]
    unfold applyInit
    simp only [getCodeField, codeData]
    split
    · rfl
    · cases hf : st.setValueFails with
      | true =>
        rw [doSetValue_fails _ _ (by simp [setCode_setValueFails, hf])]
        rfl
      | false =>
        rw [doSetValue_remote _ _ rfl (by simp [setCode_setValueFails, hf])]
        rfl

/-- C4, counterexample. The claim says the suppression flag is cleared on
every exit path of a remote buffer write including a thrown failure, but
the code_update arm has no try/finally: applying a code_update whose
buffer write raises leaves the arm with the flag still set. -/
theorem remote_flag_stuck_when_setvalue_throws :
    (dispatchMsg (mkCodeUpdate "b") demoStateFailing).2.2 = true
    ∧ (dispatchMsg (mkCodeUpdate "b") demoStateFailing).1.isRemoteChange = true := by
  exact ⟨rfl, rfl⟩

/-- C4, amended. The suppression flag is set for the duration of each
remote buffer write (inbound code_update and init), so applying such a
message never causes the local-change handler to send an outbound
code_update; the flag is cleared on every non-throwing exit path, but the
clearing is not exception-safe (no try/finally), so a thrown buffer write
leaves it set. -/
theorem remote_apply_no_echo_and_flag_cleared :
    ∀ (st : EditorState) (c : String),
      st.isRemoteChange = false → st.setValueFails = false →
      noSends (dispatchMsg (mkCodeUpdate c) st).2.1 = true
      ∧ (dispatchMsg (mkCodeUpdate c) st).1.isRemoteChange = false
      ∧ noSends (dispatchMsg (mkInit c) st).2.1 = true
      ∧ (dispatchMsg (mkInit c) st).1.isRemoteChange = false := by
  intro st c h1 h2
  have hdc : dispatchMsg (mkCodeUpdate c) st = applyCodeUpdate (some (codeData c)) st := rfl
  have hdi : dispatchMsg (mkInit c) st = applyInit (some (codeData c)) st := rfl
  rw [hdc, hdi]
  refine ⟨?_, ?_, ?_, ?_⟩
  · unfold applyCodeUpdate
    simp only [getCodeField, codeData]
    split
    · exact setCode_noSends _ _
    · rw [doSetValue_remote _ _ (by simp [setCode_isRemoteChange])
        (by simp [setCode_setValueFails, h2])]
      simp [noSends_append, setCode_noSends]
  · unfold applyCodeUpdate
    simp only [getCodeField, codeData]
    split
    · rfl
    · rw [doSetValue_remote _ _ (by simp [setCode_isRemoteChange])
        (by simp [setCode_setValueFails, h2])]
      rfl
  · unfold applyInit
    simp only [getCodeField, codeData]
    split
    · exact setCode_noSends _ _
    · rw [doSetValue_remote _ _ rfl (by simp [setCode_setValueFails, h2])]
      simp [noSends_append, setCode_noSends]
  · unfold applyInit
    simp only [getCodeField, codeData]
    split
    · simp [setCode_isRemoteChange, h1]
    · rw [doSetValue_remote _ _ rfl (by simp [setCode_setValueFails, h2])]
      rfl

/-- C4, witness. -/
theorem remote_apply_no_echo_and_flag_cleared_witness :
    noSends (dispatchMsg (mkCodeUpdate "b") demoState).2.1 = true
    ∧ (dispatchMsg (mkCodeUpdate "b") demoState).1.isRemoteChange = false
    ∧ noSends (dispatchMsg (mkInit "b") demoState).2.1 = true
    ∧ (dispatchMsg (mkInit "b") demoState).1.isRemoteChange = false :=
  remote_apply_no_echo_and_flag_cleared demoState "b" rfl rfl

/-- C5, counterexample. Two rapid cursor moves inside one 100 ms throttle
window produce exactly one outbound cursor_update, but it carries the
first position of the window, not the latest one as the claim states: the
armed send closure captured the first move and the second move was
dropped. -/
theorem throttle_sends_first_not_latest :
    cursorSends [(0, ⟨1, 1⟩), (50, ⟨2, 2⟩)] = [(100, (⟨1, 1⟩ : Pos))]
    ∧ (⟨1, 1⟩ : Pos) ≠ (⟨2, 2⟩ : Pos) := by
  exact ⟨rfl, by decide⟩

/-- C5, amended. For every burst of local cursor moves within one 100 ms
throttle window, exactly one outbound cursor_update is sent, and the
position it carries is the first position of the window; later moves
within the window are dropped rather than superseding the armed send. -/
theorem throttle_one_send_first_position :
    ∀ (t0 : Nat) (p0 : Pos) (rest : List (Nat × Pos)),
      (∀ mv ∈ rest, mv.1 < t0 + cursorThrottleMs) →
      cursorSends ((t0, p0) :: rest) = [(t0 + cursorThrottleMs, p0)] := by
  intro t0 p0 rest h
  unfold cursorSends cursorRun
  rw [List.foldl_cons]
  have h1 : cursorFold (none, []) (t0, p0) = (some (t0 + cursorThrottleMs, p0), []) := rfl
  rw [h1, cursorRun_drop rest (t0 + cursorThrottleMs) p0 [] h]
  rfl

/-- C5, witness. -/
theorem throttle_one_send_first_position_witness :
    cursorSends [(0, ⟨1, 1⟩), (30, ⟨1, 5⟩), (60, ⟨2, 1⟩)] = [(100, (⟨1, 1⟩ : Pos))] :=
  throttle_one_send_first_position 0 ⟨1, 1⟩ [(30, ⟨1, 5⟩), (60, ⟨2, 1⟩)] (by decide)

/-- C6 (confirmed). The suggestion debounce fires at most one request per
quiet period: for non-empty edits E1 at t = 0 and E2 at t = 100 exactly
one request starts, at t = 600 with the E2 snapshot; an edit arriving
while the timer is pending cancels and re-arms it; and over every action
sequence of the edit-driven pipeline at most one fetch is in flight,
because an edit aborts the in-flight fetch before re-arming. -/
theorem debounce_one_request_latest_state :
    (∀ s1 s2 : String, s1.length ≠ 0 → s2.length ≠ 0 →
      aiRequests [AIInput.edit 0 s1, AIInput.edit 100 s2] = [(600, s2)])
    ∧ (∀ (ft : Nat) (fs : String) (t : Nat) (s : String),
        t < ft → s.length ≠ 0 →
        aiStep (some (ft, fs)) (AIInput.edit t s) = (some (t + aiDebounceMs, s), []))
    ∧ (∀ acts : List AIAction, (aiFlightRun acts).inFlight ≤ 1) := by
  refine ⟨?_, ?_, ?_⟩
  · intro s1 s2 h1 h2
    simp [aiRequests, aiRun, aiFold, aiStep, aiDebounceMs, h1, h2]
  · intro ft fs t s ht hs
    simp [aiStep, hs, Nat.not_le.mpr ht]
  · intro acts
    exact (aiFlight_inv acts { armed := false, inFlight := 0 }
      (by intro h; simp at h) (by simp)).2

/-- C6, witness. -/
theorem debounce_one_request_latest_state_witness :
    aiRequests [AIInput.edit 0 "a", AIInput.edit 100 "b"] = [(600, "b")] :=
  debounce_one_request_latest_state.1 "a" "b" (by decide) (by decide)

/-- C7 (code_bug). The pipeline has no minimum inter-request interval
mechanism at all: two edits each followed by a full quiet period start
requests 501 ms apart, and two manual requestAutocomplete calls start
requests 1 ms apart, although the repository design document specifies a
rate limit of at most one request per second independent of debouncing. -/
theorem suggestion_requests_not_rate_limited :
    aiRequests [AIInput.edit 0 "x", AIInput.edit 501 "y"] = [(500, "x"), (1001, "y")]
    ∧ aiRequests [AIInput.manual 0 "x", AIInput.manual 1 "x"] = [(0, "x"), (1, "x")] := by
  exact ⟨rfl, rfl⟩

/-- C8, counterexample. The claim says a malformed or unrecognized
envelope is dropped with a logged diagnostic, but the onMessage switch has
no default arm: an envelope with an unrecognized type tag is dropped with
no effect at all — in particular no diagnostic is logged. -/
theorem unknown_type_dropped_without_log :
    onMessageHandler (some { type := "subscribe", data := none }) demoState
      = (demoState, []) := rfl

/-- C8, amended. Every inbound envelope that is unparseable, carries an
unrecognized type tag, or makes its handler arm raise on a missing payload
field is dropped and processing continues: the handler is total and never
emits a connection teardown; unparseable envelopes are dropped with a
logged diagnostic; envelopes with unrecognized type tags are dropped
silently, with no diagnostic. -/
theorem malformed_envelopes_dropped_without_teardown :
    (∀ (p : Option Msg) (st : EditorState),
      noTeardown (onMessageHandler p st).2 = true)
    ∧ (∀ st : EditorState,
      (onMessageHandler none st).2 = [Effect.logError parseLogText])
    ∧ (∀ (m : Msg) (st : EditorState), knownType m.type = false →
      onMessageHandler (some m) st = (st, [])) := by
  refine ⟨?_, fun st => rfl, ?_⟩
  · intro p st
    cases p with
    | none => rfl
    | some m =>
      have hnt := dispatchMsg_noTeardown m st
      unfold onMessageHandler
      cases hth : (dispatchMsg m st).2.2 with
      | true => simp [hth, noTeardown_append, hnt, noTeardown_logError]
      | false => simp [hth, hnt]
  · intro m st h
    simp only [knownType, Bool.or_eq_false_iff, beq_eq_false_iff_ne, ne_eq] at h
    obtain ⟨⟨⟨⟨h1, h2⟩, h3⟩, h4⟩, h5⟩ := h
    simp [onMessageHandler, dispatchMsg, h1, h2, h3, h4, h5]

/-- C8, witness. -/
theorem malformed_envelopes_dropped_without_teardown_witness :
    noTeardown (onMessageHandler none demoState).2 = true
    ∧ onMessageHandler (some { type := "presence", data := none }) demoState
        = (demoState, []) :=
  ⟨(malformed_envelopes_dropped_without_teardown.1 none demoState),
   (malformed_envelopes_dropped_without_teardown.2.2
     { type := "presence", data := none } demoState rfl)⟩

/-- C9 (confirmed). Applying an inbound code_update whose payload equals
the current local buffer text (with the code state in sync) is a complete
no-op: the state is unchanged (buffer not rewritten, decorations
untouched, suppression flag restored), no effect is emitted (no re-render,
no send), and nothing is raised. -/
theorem equal_code_update_is_noop :
    ∀ (st : EditorState) (c : String),
      st.isRemoteChange = false → st.codeState = c → st.editorValue = c →
      dispatchMsg (mkCodeUpdate c) st = (st, [], false) := by
  intro st c h1 h2 h3
  cases st with
  | mk cs ev irc cn irn rt uc rd svf =>
    dsimp only at h1 h2 h3
    subst h1
    subst h2
    subst h3
    simp [dispatchMsg, mkCodeUpdate, applyCodeUpdate, getCodeField, codeData, setCode]

/-- C9, witness. -/
theorem equal_code_update_is_noop_witness :
    dispatchMsg (mkCodeUpdate "a") demoState = (demoState, [], false) :=
  equal_code_update_is_noop demoState "a" rfl rfl rfl

/-- C10 (confirmed). When the WebSocketService internal reconnect timer
fires, connect() installs a replacement socket whose onmessage slot is
unset — even if a handler had been registered via onMessage on the
previous socket — so inbound envelopes on the new connection invoke no
handler and are silently dropped until onMessage is called again. -/
theorem reconnect_socket_loses_message_handler :
    ∀ s : WSService,
      (wsConnectTimerFire (wsOnMessage s)).ws = some freshSocket
      ∧ serviceDrops (wsConnectTimerFire (wsOnMessage s)) = true
      ∧ deliverInvokesHandler freshSocket = false :=
  fun s => ⟨rfl, rfl, rfl⟩

end PairProg
